import Mathlib

/-!
Verification of the egami frame-rendering crate.

Aspect ratios and vertex coordinates are `f32` in the source; they are
modelled here as exact rationals (`ℚ`).  Every concrete input used in a
theorem below is exactly representable in binary floating point and the
arithmetic on it is exact, so the rational model agrees with the `f32`
computation at those points.  Sizes are `u32` in the source, modelled as `ℕ`.
-/

/-- Tagged margin value, shared shape of `viewport.rs` and `vertex.rs`. -/
inductive ViewPortMargin : Type
  | Horizontal (m : ℚ)
  | Vertical (m : ℚ)
deriving DecidableEq, Repr

/-- The numeric payload of a margin, whichever axis it is on. -/
def ViewPortMargin.value : ViewPortMargin → ℚ
  | .Horizontal m => m
  | .Vertical m => m

/-- Whether the margin is on the horizontal axis. -/
def ViewPortMargin.isHorizontal : ViewPortMargin → Bool
  | .Horizontal _ => true
  | .Vertical _ => false

/-- Both margins lie on the same axis. -/
def ViewPortMargin.sameAxis (a b : ViewPortMargin) : Prop :=
  a.isHorizontal = b.isHorizontal

/-- `ViewPortMargin::from` in `src/viewport.rs` (lines 14-22): note the
margin is NOT halved there. -/
def viewportMarginFrom (object_aspect viewport_aspect : ℚ) : ViewPortMargin :=
  if object_aspect > viewport_aspect then
    ViewPortMargin.Horizontal (1 - viewport_aspect / object_aspect)
  else
    ViewPortMargin.Vertical (1 - object_aspect / viewport_aspect)

/-- The private `ViewPortMargin::from` in `src/vertex.rs` (lines 21-29):
same branch condition, margin halved. -/
def vertexMarginFrom (object_aspect viewport_aspect : ℚ) : ViewPortMargin :=
  if object_aspect > viewport_aspect then
    ViewPortMargin.Horizontal ((1 - viewport_aspect / object_aspect) / 2)
  else
    ViewPortMargin.Vertical ((1 - object_aspect / viewport_aspect) / 2)

/-- A quad vertex: clip-space position and texture coordinate,
`Vertex` in `src/vertex.rs`. -/
structure Vertex : Type where
  position : ℚ × ℚ
  texture_coords : ℚ × ℚ
deriving DecidableEq, Repr

/-- The `(horizontal margin, vertical margin)` conversion: the
`Into<(f32, f32)>` impl in `src/viewport.rs` (lines 26-33) and the
inline `match` inside `Vertex::from` in `src/vertex.rs` (lines 44-47). -/
def ViewPortMargin.toPair : ViewPortMargin → ℚ × ℚ
  | .Horizontal m => (m, 0)
  | .Vertical m => (0, m)

/-- The `(h_margin, v_margin)` pair produced by the `match` inside
`Vertex::from` in `src/vertex.rs` (lines 44-47). -/
def marginPair (image_aspect viewport_aspect : ℚ) : ℚ × ℚ :=
  (vertexMarginFrom image_aspect viewport_aspect).toPair

/-- `Vertex::from` in `src/vertex.rs` (lines 43-55): the four corner
vertices of the letterboxed quad, in the source's order
top-left, top-right, bottom-left, bottom-right. -/
def Vertex.build (image_aspect viewport_aspect : ℚ) : List Vertex :=
  let hv := marginPair image_aspect viewport_aspect
  [ { position := (-1 + hv.1, 1 - hv.2), texture_coords := (0, 0) },
    { position := (1 - hv.1, 1 - hv.2), texture_coords := (1, 0) },
    { position := (-1 + hv.1, -1 + hv.2), texture_coords := (0, 1) },
    { position := (1 - hv.1, -1 + hv.2), texture_coords := (1, 1) } ]

/-- `INDICES` in `src/vertex.rs` (lines 58-61). -/
def INDICES : List ℕ := [0, 2, 1, 2, 3, 1]

/-- `inverse_ratio` of `HasRatio for Pair<u32>` in `src/render.rs`
(lines 10-12): second component over first, i.e. height / width.
Renamed from the source's `inverse_ratio`. -/
def inverseAspect (p : ℕ × ℕ) : ℚ :=
  (p.2 : ℚ) / (p.1 : ℚ)

/-- A pulled frame: pixel size plus raw RGBA byte data, the
`HasSize + HasPosition + HasData` bundle of `src/types.rs` as used by
`draw_frame`. The position accessor always yields the origin in the
crate's only provider and is not consulted by `draw_frame`. -/
structure Frame : Type where
  size : ℕ × ℕ
  data : List ℕ
deriving DecidableEq, Repr

/-- `wgpu::SurfaceError` outcomes that `surface.get_current_texture()`
can report. -/
inductive SurfaceError : Type
  | Timeout
  | Outdated
  | Lost
  | OutOfMemory
deriving DecidableEq, Repr

/-- Observable GPU-side operations issued by the context, in program
order.  Creation of persistent objects, per-frame uploads and the draw
submission are each logged. -/
inductive GpuOp : Type
  | surfaceConfigure (w h : ℕ)
  | createIndexBuffer (contents : List ℕ)
  | createVertexBuffer (contents : List Vertex)
  | createTexture (w h : ℕ)
  | createTextureView
  | createSampler
  | createBindGroupLayout
  | createBindGroup
  | createPipelineLayout
  | createShaderModule
  | createPipeline
  | writeTexture (extentW extentH bytesPerRow rowsPerImage dataLen : ℕ)
  | submit
  | present
deriving DecidableEq, Repr

/-- Operations that only re-upload pixel data or re-submit and present a
draw, as opposed to creating a GPU object. -/
def GpuOp.uploadOrDraw : GpuOp → Bool
  | .writeTexture _ _ _ _ _ => true
  | .submit => true
  | .present => true
  | _ => false

/-- The mutable fields of `WgpuFrameRenderContext` in `src/render.rs`
(lines 16-31).  GPU handles carry their observable content: the texture
its size, the vertex buffer its vertices; sampler-free handles
(bind group, pipeline) are unit-valued and their creation shows up in
the operation trace instead. -/
structure RenderState : Type where
  configWidth : ℕ
  configHeight : ℕ
  index_count : ℕ
  index_buffer : List ℕ
  frame_size : Option (ℕ × ℕ)
  texture : Option (ℕ × ℕ)
  bind_group : Option Unit
  vertex_buffer : Option (List Vertex)
  render_pipeline : Option Unit
deriving DecidableEq, Repr

/-- `size()` of `HasSize<u32> for WgpuFrameRenderContext` in
`src/render.rs` (lines 33-37). -/
def RenderState.size (s : RenderState) : ℕ × ℕ :=
  (s.configWidth, s.configHeight)

/-- `From<WgpuFrameRenderContextInit> for WgpuFrameRenderContext` in
`src/render.rs` (lines 51-127): writes the initial surface
configuration from `surface_size`, creates the index buffer, and leaves
every lazily-created resource `None`. -/
def mkRenderContext (surface_size : ℕ × ℕ) : RenderState :=
  { configWidth := surface_size.1
    configHeight := surface_size.2
    index_count := INDICES.length
    index_buffer := INDICES
    frame_size := none
    texture := none
    bind_group := none
    vertex_buffer := none
    render_pipeline := none }

/-- The `(width, height)` of the `SurfaceConfiguration` built by
`From<WgpuFrameRenderContextInit> for WgpuFrameRenderContext` in
`src/renderer.rs` (lines 139-149).  The source assigns
`height: surface_size.width`. -/
def rendererConfigSize (surface_size : ℕ × ℕ) : ℕ × ℕ :=
  (surface_size.1, surface_size.1)

/-- `WgpuFrameRenderContext::get_vertices` in `src/render.rs`
(lines 130-142): when a frame size is known, builds the vertex list via
`Vertex` from the frame's and the current surface's height/width ratios
and creates a vertex buffer holding it; otherwise yields `none` and
creates nothing. -/
def get_vertices (s : RenderState) : Option (List Vertex) × List GpuOp :=
  match s.frame_size with
  | some frame_size =>
      let contents := Vertex.build (inverseAspect frame_size) (inverseAspect s.size)
      (some contents, [GpuOp.createVertexBuffer contents])
  | none => (none, [])

/-- `WgpuFrameRenderContext::queue_write_texture` in `src/render.rs`
(lines 144-163): uploads the frame's bytes when a texture exists; the
copy extent is the TEXTURE's size while the row layout comes from the
frame. -/
def queue_write_texture (s : RenderState) (frame : Frame) : List GpuOp :=
  match s.texture with
  | some tex =>
      [GpuOp.writeTexture tex.1 tex.2 (4 * frame.size.1) frame.size.2 frame.data.length]
  | none => []

/-- `WgpuFrameRenderContext::configure` in `src/render.rs`
(lines 170-181): writes the new size into the surface configuration,
reconfigures the surface, and, when a vertex buffer already exists,
rebuilds it via `get_vertices`. -/
def configure (s : RenderState) (size : ℕ × ℕ) : RenderState × List GpuOp :=
  let s1 : RenderState := { s with configWidth := size.1, configHeight := size.2 }
  let ops := [GpuOp.surfaceConfigure size.1 size.2]
  match s1.vertex_buffer with
  | some _ =>
      let gv := get_vertices s1
      ({ s1 with vertex_buffer := gv.1 }, ops ++ gv.2)
  | none => (s1, ops)

/-- `WgpuFrameRenderContext::draw_frame` in `src/render.rs`
(lines 183-361).  The frame provider is modelled as the list of frames
it will yield (`next()` takes the head); the outcome of
`surface.get_current_texture()` is the `acquire` parameter, since it is
decided by the backend.  Returns the new state, the trace of GPU
operations issued, and the `Result`. -/
def draw_frame (s : RenderState) (frame_provider : List Frame)
    (acquire : Except SurfaceError Unit) :
    RenderState × List GpuOp × Except SurfaceError Unit :=
  match frame_provider with
  | [] => (s, [], Except.ok ())
  | frame :: _ =>
      let s1 : RenderState := { s with frame_size := some frame.size }
      let created :=
        match s1.texture with
        | none =>
            let frame_size := frame.size
            let gv := get_vertices s1
            let s2 : RenderState :=
              { s1 with
                  vertex_buffer := gv.1
                  texture := some (frame_size.1, frame_size.2)
                  bind_group := some ()
                  render_pipeline := some () }
            (s2, gv.2 ++
              [GpuOp.createTexture frame_size.1 frame_size.2,
               GpuOp.createTextureView, GpuOp.createSampler,
               GpuOp.createBindGroupLayout, GpuOp.createBindGroup,
               GpuOp.createPipelineLayout, GpuOp.createShaderModule,
               GpuOp.createPipeline])
        | some _ => (s1, ([] : List GpuOp))
      let s3 := created.1
      let writeOps := queue_write_texture s3 frame
      match acquire with
      | Except.error e => (s3, created.2 ++ writeOps, Except.error e)
      | Except.ok _ =>
          (s3, created.2 ++ writeOps ++ [GpuOp.submit, GpuOp.present], Except.ok ())

/-- A sequence of `draw_frame` calls: each element supplies the frames
its provider yields and the surface-acquisition outcome of that call.
The traces are concatenated. -/
def runDraws (s : RenderState) :
    List (List Frame × Except SurfaceError Unit) → RenderState × List GpuOp
  | [] => (s, [])
  | call :: rest =>
      let r := draw_frame s call.1 call.2
      let r2 := runDraws r.1 rest
      (r2.1, r.2.1 ++ r2.2)

/-! ## Shared lemmas about the margin computations -/

/-- Both margins that `Vertex::from` derives are nonnegative and below
one half, for positive aspect ratios. -/
theorem marginPair_mem (io vo : ℚ) (hi : 0 < io) (hv : 0 < vo) :
    0 ≤ (marginPair io vo).1 ∧ (marginPair io vo).1 < 1 / 2 ∧
    0 ≤ (marginPair io vo).2 ∧ (marginPair io vo).2 < 1 / 2 := by
  by_cases h : vo < io
  · have h1 : vo / io < 1 := (div_lt_one hi).mpr h
    have h2 : 0 < vo / io := div_pos hv hi
    simp only [marginPair, vertexMarginFrom, gt_iff_lt, if_pos h, ViewPortMargin.toPair]
    refine ⟨by linarith, by linarith, le_refl 0, by norm_num⟩
  · have hle : io ≤ vo := not_lt.mp h
    have h1 : io / vo ≤ 1 := (div_le_one hv).mpr hle
    have h2 : 0 < io / vo := div_pos hi hv
    simp only [marginPair, vertexMarginFrom, gt_iff_lt, if_neg h, ViewPortMargin.toPair]
    refine ⟨le_refl 0, by norm_num, by linarith, by linarith⟩

/-- Flipping both divisions reverses a strict inequality of positive
ratios. -/
theorem div_flip_lt (o1 v1 o2 v2 : ℚ) (ho1 : 0 < o1) (hv1 : 0 < v1)
    (h : o1 / v1 < o2 / v2) : v2 / o2 < v1 / o1 := by
  have hpos : 0 < o1 / v1 := div_pos ho1 hv1
  have h2 : (o2 / v2)⁻¹ < (o1 / v1)⁻¹ := inv_strictAnti₀ hpos h
  rwa [inv_div, inv_div] at h2

/-! ## Claims about the margin computations -/

/-- Claim C1 counterexample: the margin computation in `viewport.rs`,
one of the two cited implementations, does not halve the margin: at
object aspect 1 and viewport aspect 1/2 it returns Horizontal(1/2),
not the claimed Horizontal((1 - (1/2)/1)/2) = Horizontal(1/4). -/
theorem C1_counterexample :
    viewportMarginFrom 1 (1 / 2) = ViewPortMargin.Horizontal (1 / 2) ∧
    viewportMarginFrom 1 (1 / 2) ≠
      ViewPortMargin.Horizontal ((1 - (1 / 2) / 1) / 2) := by
  constructor
  · norm_num [viewportMarginFrom]
  · norm_num [viewportMarginFrom]

/-- Claim C1 (amended): for positive aspect ratios with
objectAspect > viewportAspect, the `vertex.rs` margin computation
returns Horizontal((1 - viewportAspect/objectAspect) / 2) as the claim
states, while the separate `viewport.rs` implementation returns the
unhalved Horizontal(1 - viewportAspect/objectAspect). -/
theorem C1_horizontal_margin (o v : ℚ) (_ho : 0 < o) (_hv : 0 < v)
    (hlt : v < o) :
    vertexMarginFrom o v = ViewPortMargin.Horizontal ((1 - v / o) / 2) ∧
    viewportMarginFrom o v = ViewPortMargin.Horizontal (1 - v / o) := by
  constructor <;> simp [vertexMarginFrom, viewportMarginFrom, hlt]

/-- Claim C1 witness at object aspect 2, viewport aspect 1. -/
theorem C1_horizontal_margin_witness :
    vertexMarginFrom 2 1 = ViewPortMargin.Horizontal ((1 - 1 / 2) / 2) ∧
    viewportMarginFrom 2 1 = ViewPortMargin.Horizontal (1 - 1 / 2) :=
  C1_horizontal_margin 2 1 (by norm_num) (by norm_num) (by norm_num)

/-- Claim C2 counterexample: at objectAspect = 1/2, viewportAspect = 1
the `vertex.rs` margin computation does not return Horizontal(1/4). -/
theorem C2_counterexample :
    vertexMarginFrom (1 / 2) 1 ≠ ViewPortMargin.Horizontal (1 / 4) := by
  norm_num [vertexMarginFrom]
  exact fun h => ViewPortMargin.noConfusion h

/-- Claim C2 (amended): a square (1:1) viewport receiving a 2:1 wide
frame (objectAspect = 1/2, viewportAspect = 1) yields Vertical(1/4): the
Vertical branch fires because 1/2 < 1, with the same 0.25 magnitude. -/
theorem C2_square_viewport_wide_frame :
    vertexMarginFrom (1 / 2) 1 = ViewPortMargin.Vertical (1 / 4) := by
  norm_num [vertexMarginFrom]

/-- Claim C6 counterexample: the `viewport.rs` implementation, one of
the two cited, returns Horizontal(3/4) at aspect ratios (4, 1), whose
margin is not below 1/2. -/
theorem C6_counterexample :
    viewportMarginFrom 4 1 = ViewPortMargin.Horizontal (3 / 4) ∧
    ¬ (ViewPortMargin.value (viewportMarginFrom 4 1) < 1 / 2) := by
  constructor
  · norm_num [viewportMarginFrom]
  · norm_num [viewportMarginFrom, ViewPortMargin.value]

/-- Claim C6 (amended): for a_obj > a_view > 0 the `vertex.rs`
computation returns Horizontal(m) with 0 ≤ m < 1/2 and the
`viewport.rs` computation returns Horizontal(m) with 0 ≤ m < 1; both
margins strictly increase as a_obj/a_view increases. -/
theorem C6_horizontal_monotone :
    (∀ o v : ℚ, 0 < v → v < o →
       ∃ m, vertexMarginFrom o v = ViewPortMargin.Horizontal m ∧
         0 ≤ m ∧ m < 1 / 2) ∧
    (∀ o v : ℚ, 0 < v → v < o →
       ∃ m, viewportMarginFrom o v = ViewPortMargin.Horizontal m ∧
         0 ≤ m ∧ m < 1) ∧
    (∀ o1 v1 o2 v2 : ℚ, 0 < v1 → v1 < o1 → 0 < v2 → v2 < o2 →
       o1 / v1 < o2 / v2 →
       (vertexMarginFrom o1 v1).value < (vertexMarginFrom o2 v2).value ∧
       (viewportMarginFrom o1 v1).value < (viewportMarginFrom o2 v2).value) := by
  refine ⟨?_, ?_, ?_⟩
  · intro o v hv hlt
    have ho : 0 < o := hv.trans hlt
    have h1 : v / o < 1 := (div_lt_one ho).mpr hlt
    have h2 : 0 < v / o := div_pos hv ho
    exact ⟨(1 - v / o) / 2, by simp [vertexMarginFrom, hlt], by linarith, by linarith⟩
  · intro o v hv hlt
    have ho : 0 < o := hv.trans hlt
    have h1 : v / o < 1 := (div_lt_one ho).mpr hlt
    have h2 : 0 < v / o := div_pos hv ho
    exact ⟨1 - v / o, by simp [viewportMarginFrom, hlt], by linarith, by linarith⟩
  · intro o1 v1 o2 v2 hv1 hlt1 hv2 hlt2 hr
    have ho1 : 0 < o1 := hv1.trans hlt1
    have hflip : v2 / o2 < v1 / o1 := div_flip_lt o1 v1 o2 v2 ho1 hv1 hr
    constructor
    · simp only [vertexMarginFrom, gt_iff_lt, if_pos hlt1, if_pos hlt2,
        ViewPortMargin.value]
      linarith
    · simp only [viewportMarginFrom, gt_iff_lt, if_pos hlt1, if_pos hlt2,
        ViewPortMargin.value]
      linarith

/-- Claim C6 witness: margins at ratio pairs (3, 1) and (4, 1). -/
theorem C6_horizontal_monotone_witness :
    (vertexMarginFrom 3 1).value < (vertexMarginFrom 4 1).value ∧
    (viewportMarginFrom 3 1).value < (viewportMarginFrom 4 1).value :=
  C6_horizontal_monotone.2.2 3 1 4 1 (by norm_num) (by norm_num)
    (by norm_num) (by norm_num) (by norm_num)

/-- Claim C10 counterexample: at aspect ratios (2, 1) the two cited
implementations both pick the horizontal axis but their margin values
differ: 1/4 in `vertex.rs` versus 1/2 in `viewport.rs`. -/
theorem C10_counterexample :
    (vertexMarginFrom 2 1).value = 1 / 4 ∧
    (viewportMarginFrom 2 1).value = 1 / 2 ∧
    (vertexMarginFrom 2 1).value ≠ (viewportMarginFrom 2 1).value := by
  refine ⟨?_, ?_, ?_⟩ <;>
    norm_num [vertexMarginFrom, viewportMarginFrom, ViewPortMargin.value]

/-- Claim C10 (amended): for every pair of positive aspect ratios the
two implementations select the same axis, but the `viewport.rs` margin
is exactly twice the `vertex.rs` margin rather than equal to it. -/
theorem C10_same_axis_double_value (o v : ℚ) (_ho : 0 < o) (_hv : 0 < v) :
    ViewPortMargin.sameAxis (viewportMarginFrom o v) (vertexMarginFrom o v) ∧
    (viewportMarginFrom o v).value = 2 * (vertexMarginFrom o v).value := by
  by_cases h : v < o
  · simp only [viewportMarginFrom, vertexMarginFrom, gt_iff_lt, if_pos h,
      ViewPortMargin.sameAxis, ViewPortMargin.isHorizontal, ViewPortMargin.value]
    exact ⟨trivial, by ring⟩
  · simp only [viewportMarginFrom, vertexMarginFrom, gt_iff_lt, if_neg h,
      ViewPortMargin.sameAxis, ViewPortMargin.isHorizontal, ViewPortMargin.value]
    exact ⟨trivial, by ring⟩

/-- Claim C10 witness at aspect ratios (1, 2). -/
theorem C10_same_axis_double_value_witness :
    ViewPortMargin.sameAxis (viewportMarginFrom 1 2) (vertexMarginFrom 1 2) ∧
    (viewportMarginFrom 1 2).value = 2 * (vertexMarginFrom 1 2).value :=
  C10_same_axis_double_value 1 2 (by norm_num) (by norm_num)

/-! ## Shared material for the render-context claims -/

/-- A concrete Resourced context: surface 1600 × 900, first frame was
800 × 600, every lazily-created resource present. -/
def resourcedState : RenderState :=
  { configWidth := 1600
    configHeight := 900
    index_count := 6
    index_buffer := INDICES
    frame_size := some (800, 600)
    texture := some (800, 600)
    bind_group := some ()
    vertex_buffer := some []
    render_pipeline := some () }

/-- One `draw_frame` call on a context that already has a texture keeps
the texture, bind group, pipeline and vertex buffer fields and issues
only upload, submit and present operations. -/
theorem draw_frame_textured (s : RenderState) (t : ℕ × ℕ)
    (frames : List Frame) (acq : Except SurfaceError Unit)
    (ht : s.texture = some t) :
    (draw_frame s frames acq).1.texture = some t ∧
    (draw_frame s frames acq).1.bind_group = s.bind_group ∧
    (draw_frame s frames acq).1.render_pipeline = s.render_pipeline ∧
    (draw_frame s frames acq).1.vertex_buffer = s.vertex_buffer ∧
    ∀ op ∈ (draw_frame s frames acq).2.1, op.uploadOrDraw = true := by
  cases frames with
  | nil => simp [draw_frame, ht]
  | cons f rest =>
      cases acq with
      | error e =>
          simp [draw_frame, ht, queue_write_texture, GpuOp.uploadOrDraw]
      | ok u =>
          simp [draw_frame, ht, queue_write_texture, GpuOp.uploadOrDraw]

/-! ## Claims about the render context -/

/-- Claim C3: from a Resourced context (frame size, texture, bind
group, pipeline and vertex buffer all present), `configure(newSize)`
writes the new size into the surface configuration and rebuilds only
the vertex buffer, from the existing frame size and the new viewport
size; texture, bind group, render pipeline and frame size are
unchanged, and the only operations issued are the surface
reconfiguration and one vertex-buffer creation. -/
theorem C3_configure_resourced (s : RenderState) (sz fs t : ℕ × ℕ)
    (vb : List Vertex)
    (hf : s.frame_size = some fs) (_ht : s.texture = some t)
    (_hb : s.bind_group = some ()) (_hp : s.render_pipeline = some ())
    (hv : s.vertex_buffer = some vb) :
    (configure s sz).1.configWidth = sz.1 ∧
    (configure s sz).1.configHeight = sz.2 ∧
    (configure s sz).1.vertex_buffer =
      some (Vertex.build (inverseAspect fs) (inverseAspect sz)) ∧
    (configure s sz).1.texture = s.texture ∧
    (configure s sz).1.bind_group = s.bind_group ∧
    (configure s sz).1.render_pipeline = s.render_pipeline ∧
    (configure s sz).1.frame_size = s.frame_size ∧
    (configure s sz).2 =
      [GpuOp.surfaceConfigure sz.1 sz.2,
       GpuOp.createVertexBuffer
         (Vertex.build (inverseAspect fs) (inverseAspect sz))] := by
  simp [configure, get_vertices, RenderState.size, hf, hv]

/-- Claim C3 witness: the Resourced context resized to 1024 × 768. -/
theorem C3_configure_resourced_witness :
    (configure resourcedState (1024, 768)).1.configWidth = 1024 ∧
    (configure resourcedState (1024, 768)).1.configHeight = 768 ∧
    (configure resourcedState (1024, 768)).1.vertex_buffer =
      some (Vertex.build (inverseAspect (800, 600)) (inverseAspect (1024, 768))) ∧
    (configure resourcedState (1024, 768)).1.texture = resourcedState.texture ∧
    (configure resourcedState (1024, 768)).1.bind_group = resourcedState.bind_group ∧
    (configure resourcedState (1024, 768)).1.render_pipeline =
      resourcedState.render_pipeline ∧
    (configure resourcedState (1024, 768)).1.frame_size = resourcedState.frame_size ∧
    (configure resourcedState (1024, 768)).2 =
      [GpuOp.surfaceConfigure 1024 768,
       GpuOp.createVertexBuffer
         (Vertex.build (inverseAspect (800, 600)) (inverseAspect (1024, 768)))] :=
  C3_configure_resourced resourcedState (1024, 768) (800, 600) (800, 600) []
    rfl rfl rfl rfl rfl

/-- Claim C4: once the texture field is set (the first frame has been
pulled), any sequence of further `draw_frame` calls leaves the texture,
bind group and render pipeline fields untouched and issues only
pixel-upload, submit and present operations - no creation of texture,
sampler, bind group or pipeline ever appears in the trace. -/
theorem C4_no_recreation (s : RenderState) (t : ℕ × ℕ)
    (calls : List (List Frame × Except SurfaceError Unit))
    (ht : s.texture = some t) :
    (runDraws s calls).1.texture = some t ∧
    (runDraws s calls).1.bind_group = s.bind_group ∧
    (runDraws s calls).1.render_pipeline = s.render_pipeline ∧
    ∀ op ∈ (runDraws s calls).2, op.uploadOrDraw = true := by
  induction calls generalizing s with
  | nil =>
      refine ⟨by simpa [runDraws] using ht, by simp [runDraws], by simp [runDraws],
        by simp [runDraws]⟩
  | cons c rest ih =>
      obtain ⟨h1, h2, h3, _h4, h5⟩ := draw_frame_textured s t c.1 c.2 ht
      obtain ⟨ih1, ih2, ih3, ih4⟩ := ih (draw_frame s c.1 c.2).1 h1
      refine ⟨?_, ?_, ?_, ?_⟩
      · simpa [runDraws] using ih1
      · simp only [runDraws]
        exact ih2.trans h2
      · simp only [runDraws]
        exact ih3.trans h3
      · simp only [runDraws, List.mem_append]
        rintro op (hop | hop)
        · exact h5 op hop
        · exact ih4 op hop

/-- Claim C4 witness: two further draw calls on the Resourced context,
one succeeding and one with a failing acquisition. -/
theorem C4_no_recreation_witness :
    (runDraws resourcedState
        [([Frame.mk (800, 600) []], Except.ok ()),
         ([Frame.mk (800, 600) []], Except.error SurfaceError.Outdated)]).1.texture =
      some (800, 600) ∧
    (runDraws resourcedState
        [([Frame.mk (800, 600) []], Except.ok ()),
         ([Frame.mk (800, 600) []], Except.error SurfaceError.Outdated)]).1.bind_group =
      resourcedState.bind_group ∧
    (runDraws resourcedState
        [([Frame.mk (800, 600) []], Except.ok ()),
         ([Frame.mk (800, 600) []],
          Except.error SurfaceError.Outdated)]).1.render_pipeline =
      resourcedState.render_pipeline ∧
    ∀ op ∈ (runDraws resourcedState
        [([Frame.mk (800, 600) []], Except.ok ()),
         ([Frame.mk (800, 600) []], Except.error SurfaceError.Outdated)]).2,
      op.uploadOrDraw = true :=
  C4_no_recreation resourcedState (800, 600)
    [([Frame.mk (800, 600) []], Except.ok ()),
     ([Frame.mk (800, 600) []], Except.error SurfaceError.Outdated)] rfl

/-- Claim C5 counterexample: from the freshly constructed (Configured)
context, a `draw_frame` call that pulls a 100 × 50 frame and then fails
at surface acquisition returns the error but has already created the
texture (and set the frame size): the texture field changes from `none`
to `some (100, 50)`. -/
theorem C5_counterexample :
    (mkRenderContext (800, 600)).texture = none ∧
    (draw_frame (mkRenderContext (800, 600)) [Frame.mk (100, 50) []]
        (Except.error SurfaceError.Outdated)).2.2 =
      Except.error SurfaceError.Outdated ∧
    (draw_frame (mkRenderContext (800, 600)) [Frame.mk (100, 50) []]
        (Except.error SurfaceError.Outdated)).1.texture = some (100, 50) := by
  refine ⟨rfl, rfl, rfl⟩

/-- Claim C5 (amended): when the context already has a texture and the
pulled frame has the stored frame size, a `draw_frame` call that fails
with a transient surface-acquisition error returns that error and
leaves the frame size, texture, bind group, vertex buffer and render
pipeline fields exactly as they were; in the remaining cases the call
updates `frame_size` (and, from Configured, creates the resources)
before failing. -/
theorem C5_transient_failure (s : RenderState) (t : ℕ × ℕ) (f : Frame)
    (rest : List Frame) (e : SurfaceError)
    (ht : s.texture = some t) (hf : s.frame_size = some f.size) :
    (draw_frame s (f :: rest) (Except.error e)).2.2 = Except.error e ∧
    (draw_frame s (f :: rest) (Except.error e)).1.frame_size = s.frame_size ∧
    (draw_frame s (f :: rest) (Except.error e)).1.texture = s.texture ∧
    (draw_frame s (f :: rest) (Except.error e)).1.bind_group = s.bind_group ∧
    (draw_frame s (f :: rest) (Except.error e)).1.vertex_buffer = s.vertex_buffer ∧
    (draw_frame s (f :: rest) (Except.error e)).1.render_pipeline =
      s.render_pipeline := by
  simp [draw_frame, ht, hf, queue_write_texture]

/-- Claim C5 witness: the Resourced context pulling a frame of the
stored 800 × 600 size and hitting an Outdated surface. -/
theorem C5_transient_failure_witness :
    (draw_frame resourcedState [Frame.mk (800, 600) []]
        (Except.error SurfaceError.Outdated)).2.2 =
      Except.error SurfaceError.Outdated ∧
    (draw_frame resourcedState [Frame.mk (800, 600) []]
        (Except.error SurfaceError.Outdated)).1.frame_size =
      resourcedState.frame_size ∧
    (draw_frame resourcedState [Frame.mk (800, 600) []]
        (Except.error SurfaceError.Outdated)).1.texture = resourcedState.texture ∧
    (draw_frame resourcedState [Frame.mk (800, 600) []]
        (Except.error SurfaceError.Outdated)).1.bind_group =
      resourcedState.bind_group ∧
    (draw_frame resourcedState [Frame.mk (800, 600) []]
        (Except.error SurfaceError.Outdated)).1.vertex_buffer =
      resourcedState.vertex_buffer ∧
    (draw_frame resourcedState [Frame.mk (800, 600) []]
        (Except.error SurfaceError.Outdated)).1.render_pipeline =
      resourcedState.render_pipeline :=
  C5_transient_failure resourcedState (800, 600) (Frame.mk (800, 600) []) []
    SurfaceError.Outdated rfl rfl

/-- Claim C8: a `draw_frame` call on a Configured context whose frame
provider yields nothing returns success, issues no operation at all,
and leaves the texture, frame size, bind group, vertex buffer and
render pipeline fields `none`. -/
theorem C8_no_frame_noop (s : RenderState) (acq : Except SurfaceError Unit)
    (ht : s.texture = none) (hf : s.frame_size = none)
    (hb : s.bind_group = none) (hv : s.vertex_buffer = none)
    (hp : s.render_pipeline = none) :
    (draw_frame s [] acq).2.2 = Except.ok () ∧
    (draw_frame s [] acq).2.1 = [] ∧
    (draw_frame s [] acq).1.texture = none ∧
    (draw_frame s [] acq).1.frame_size = none ∧
    (draw_frame s [] acq).1.bind_group = none ∧
    (draw_frame s [] acq).1.vertex_buffer = none ∧
    (draw_frame s [] acq).1.render_pipeline = none := by
  simp [draw_frame, ht, hf, hb, hv, hp]

/-- Claim C8 witness: the freshly constructed 800 × 600 context with an
empty provider. -/
theorem C8_no_frame_noop_witness :
    (draw_frame (mkRenderContext (800, 600)) [] (Except.ok ())).2.2 =
      Except.ok () ∧
    (draw_frame (mkRenderContext (800, 600)) [] (Except.ok ())).2.1 = [] ∧
    (draw_frame (mkRenderContext (800, 600)) [] (Except.ok ())).1.texture = none ∧
    (draw_frame (mkRenderContext (800, 600)) [] (Except.ok ())).1.frame_size = none ∧
    (draw_frame (mkRenderContext (800, 600)) [] (Except.ok ())).1.bind_group = none ∧
    (draw_frame (mkRenderContext (800, 600)) [] (Except.ok ())).1.vertex_buffer =
      none ∧
    (draw_frame (mkRenderContext (800, 600)) [] (Except.ok ())).1.render_pipeline =
      none :=
  C8_no_frame_noop (mkRenderContext (800, 600)) (Except.ok ()) rfl rfl rfl rfl rfl

/-- Claim C9: the `render.rs` constructor writes width 2400 and height
960 from the initial size (2400, 960), but the `renderer.rs`
constructor assigns the configuration height from the surface WIDTH,
producing a 2400 × 2400 configuration from the same input. -/
theorem C9_initial_config :
    (mkRenderContext (2400, 960)).configWidth = 2400 ∧
    (mkRenderContext (2400, 960)).configHeight = 960 ∧
    rendererConfigSize (2400, 960) = (2400, 2400) :=
  ⟨rfl, rfl, rfl⟩

/-- Claim C7: for positive aspect ratios the vertex builder returns
exactly 4 vertices, every position coordinate lies in [-1, 1], and the
texture coordinates are exactly the unit-square corners (0,0), (1,0),
(0,1), (1,1) in the fixed top-left, top-right, bottom-left,
bottom-right order. -/
theorem C7_quad_vertices (io vo : ℚ) (hi : 0 < io) (hv : 0 < vo) :
    (Vertex.build io vo).length = 4 ∧
    (∀ vtx ∈ Vertex.build io vo,
       -1 ≤ vtx.position.1 ∧ vtx.position.1 ≤ 1 ∧
       -1 ≤ vtx.position.2 ∧ vtx.position.2 ≤ 1) ∧
    (Vertex.build io vo).map Vertex.texture_coords =
      [(0, 0), (1, 0), (0, 1), (1, 1)] := by
  obtain ⟨h0, h1, h2, h3⟩ := marginPair_mem io vo hi hv
  refine ⟨rfl, ?_, rfl⟩
  intro vtx hvtx
  simp only [Vertex.build, List.mem_cons, List.not_mem_nil, or_false] at hvtx
  rcases hvtx with h | h | h | h <;> subst h <;>
    exact ⟨by dsimp; linarith, by dsimp; linarith, by dsimp; linarith,
      by dsimp; linarith⟩

/-- Claim C7 witness at image aspect 3/4, viewport aspect 9/16. -/
theorem C7_quad_vertices_witness :
    (Vertex.build (3 / 4) (9 / 16)).length = 4 ∧
    (∀ vtx ∈ Vertex.build (3 / 4) (9 / 16),
       -1 ≤ vtx.position.1 ∧ vtx.position.1 ≤ 1 ∧
       -1 ≤ vtx.position.2 ∧ vtx.position.2 ≤ 1) ∧
    (Vertex.build (3 / 4) (9 / 16)).map Vertex.texture_coords =
      [(0, 0), (1, 0), (0, 1), (1, 1)] :=
  C7_quad_vertices (3 / 4) (9 / 16) (by norm_num) (by norm_num)
